import Mathlib

/-!
Verification development for a small two-process web application
(`main.py`): an HTTP front door that serves template/static files and
forwards POST bodies over UDP, and a UDP storage server that parses
form payloads, timestamps them and persists them.

The Python source is shallowly embedded below.  Paths are modelled as
lists of components of a canonical absolute path (no symlinks), the
filesystem as a pair of functions giving existence and regular-file
contents, byte strings as `List Nat`, and text as `List Char` / `String`.
Library collaborators used by the code (`urllib.parse.urlparse`,
`urllib.parse.parse_qs`, `mimetypes.guess_type`, `str.strip`, `int`,
UTF-8 codecs) are embedded following their CPython semantics on the
inputs this program feeds them.
-/

/-! ## Python string primitives -/

/-- Characters stripped by Python `str.strip()` (the Unicode whitespace
set used by CPython for `str.isspace`). -/
def pyIsSpace (c : Char) : Bool :=
  let n := c.toNat
  decide (n = 32 ∨ (9 ≤ n ∧ n ≤ 13) ∨ (28 ≤ n ∧ n ≤ 31) ∨ n = 133 ∨ n = 160 ∨
    n = 5760 ∨ (8192 ≤ n ∧ n ≤ 8202) ∨ n = 8232 ∨ n = 8233 ∨ n = 8239 ∨
    n = 8287 ∨ n = 12288)

/-- Python `str.strip()` with no argument: remove leading and trailing
whitespace. -/
def pyStrip (cs : List Char) : List Char :=
  ((cs.dropWhile pyIsSpace).reverse.dropWhile pyIsSpace).reverse

/-- Split a list at the first character satisfying `p`: returns the part
before it and, when found, the part after it (Python `str.split(sep, 1)`
and `str.find`). -/
def splitFirst (p : Char → Bool) : List Char → List Char × Option (List Char)
  | [] => ([], none)
  | c :: rest =>
    if p c then ([], some rest)
    else
      let r := splitFirst p rest
      (c :: r.1, r.2)

/-- Split a list on every occurrence of `sep` (Python `str.split(sep)`,
which yields empty pieces for adjacent separators). -/
def splitChar (sep : Char) : List Char → List (List Char)
  | [] => [[]]
  | c :: rest =>
    match splitChar sep rest with
    | [] => [[]]
    | g :: gs => if c = sep then [] :: g :: gs else (c :: g) :: gs

/-- Python `str.startswith`, on the character sequences of the strings. -/
def strStartsWith (s pre : String) : Bool :=
  pre.data.isPrefixOf s.data

/-- Python string slicing `s[n:]` (by code points). -/
def strDrop (s : String) (n : Nat) : String :=
  String.mk (s.data.drop n)

/-- Python `int(str)`: digit run after the first digit, where a single
underscore may stand between digits (`int("4_2") = 42`). -/
def pyDigits (acc : Nat) : List Char → Option Nat
  | [] => some acc
  | '_' :: rest =>
    match rest with
    | c :: rest2 =>
      if c.isDigit then pyDigits (acc * 10 + (c.toNat - 48)) rest2 else none
    | [] => none
  | c :: rest =>
    if c.isDigit then pyDigits (acc * 10 + (c.toNat - 48)) rest else none

/-- Python `int(str)`: strips whitespace, accepts an optional sign and a
nonempty ASCII digit run (with embedded underscores); `none` models the
`ValueError` raised on any other input.  (Non-ASCII decimal digits are
not modelled; the program only feeds this header token text.) -/
def pyInt (s : String) : Option Int :=
  match pyStrip s.data with
  | '+' :: c :: rest =>
    if c.isDigit then (pyDigits (c.toNat - 48) rest).map (fun n => (n : Int)) else none
  | '-' :: c :: rest =>
    if c.isDigit then (pyDigits (c.toNat - 48) rest).map (fun n => -(n : Int)) else none
  | '+' :: [] => none
  | '-' :: [] => none
  | c :: rest =>
    if c.isDigit then (pyDigits (c.toNat - 48) rest).map (fun n => (n : Int)) else none
  | [] => none

/-! ## urllib.parse.urlparse — extraction of the path component

Mirrors CPython `urlsplit`/`urlparse`: removal of tab/CR/LF, optional
scheme split at the first colon, optional netloc after a leading `//`,
fragment split at the first `#`, query split at the first `?`, and the
params split at the first `;` of the last path segment. -/

/-- Characters allowed in a URL scheme (CPython `scheme_chars`). -/
def isSchemeChar (c : Char) : Bool :=
  c.isAlpha || c.isDigit || c == '+' || c == '-' || c == '.'

/-- Split off `scheme:` when the text before the first colon is a valid
scheme starting with an ASCII letter; returns the lowercased scheme and
the remainder (or an empty scheme and the input unchanged). -/
def splitScheme (cs : List Char) : List Char × List Char :=
  match splitFirst (· == ':') cs with
  | (pre, some rest) =>
    match pre with
    | [] => ([], cs)
    | c0 :: _ =>
      if c0.isAlpha && pre.all isSchemeChar then (pre.map Char.toLower, rest) else ([], cs)
  | (_, none) => ([], cs)

/-- Drop a `//netloc` part: everything from index 2 up to the next
`/`, `?` or `#` (CPython `_splitnetloc`). -/
def splitNetloc (cs : List Char) : List Char :=
  match cs with
  | '/' :: '/' :: rest => rest.dropWhile (fun c => !(c == '/' || c == '?' || c == '#'))
  | _ => cs

/-- Schemes for which urlparse performs the params split
(CPython `uses_params`; the empty scheme is included). -/
def usesParams : List (List Char) :=
  [String.data "", String.data "ftp", String.data "hdl", String.data "prospero",
   String.data "http", String.data "imap", String.data "https", String.data "shttp",
   String.data "rtsp", String.data "rtspu", String.data "sip", String.data "sips",
   String.data "mms", String.data "sftp", String.data "tel"]

/-- CPython `_splitparams`: cut at the first `;` occurring in the last
`/`-separated segment; only called when the path contains a `;`. -/
def splitParams (cs : List Char) : List Char :=
  if cs.contains '/' then
    match splitFirst (· == '/') cs.reverse with
    | (revTail, some revPre) =>
      let tl := revTail.reverse
      if tl.contains ';' then revPre.reverse ++ '/' :: (splitFirst (· == ';') tl).1
      else cs
    | (_, none) => cs
  else (splitFirst (· == ';') cs).1

/-- The `path` component of `urllib.parse.urlparse(s)`
(`url = urllib.parse.urlparse(self.path); route = url.path`,
main.py lines 59-60). -/
def urlparsePath (s : String) : String :=
  let cs0 := s.data.filter fun c => !(c == '\t' || c == '\r' || c == '\n')
  let sp := splitScheme cs0
  let cs2 := splitNetloc sp.2
  let cs3 := (splitFirst (· == '#') cs2).1
  let cs4 := (splitFirst (· == '?') cs3).1
  let cs5 := if usesParams.contains sp.1 && cs4.contains ';' then splitParams cs4 else cs4
  String.mk cs5

/-! ## Path resolution (pathlib) and the traversal check -/

/-- One step of lexical resolution: empty and `.` components vanish,
`..` removes the last component (staying at the filesystem root when
already there), anything else is appended.  This is what
`(STATIC_DIR / rel).resolve()` computes on a symlink-free tree. -/
def resolveStep (acc : List String) (comp : List Char) : List String :=
  if comp = [] ∨ comp = ['.'] then acc
  else if comp = ['.', '.'] then acc.dropLast
  else acc ++ [String.mk comp]

/-- `(base / rel).resolve()` for a canonical absolute `base`: when `rel`
is absolute it replaces `base` entirely (pathlib join semantics),
otherwise its components are resolved on top of `base`
(main.py line 77). -/
def resolveJoin (base : List String) (rel : String) : List String :=
  let start := if rel.data.head? = some '/' then [] else base
  (splitChar '/' rel.data).foldl resolveStep start

/-- `_is_under(child, parent)` (main.py lines 152-158):
`child.relative_to(parent)` succeeds exactly when the component list of
`parent` is a prefix of that of `child`. -/
def is_under (child parent : List String) : Bool :=
  parent.isPrefixOf child

/-! ## Filesystem model and HTTP responses -/

/-- Filesystem as seen by the HTTP process.  `file p` is `some bytes`
exactly when `p` names an existing readable regular file (`is_file()`
true, `read_bytes()` returns `bytes`); `existsAt p` is `p.exists()`.
Directories are paths with `existsAt` true and `file` `none`. -/
structure FS where
  file : List String → Option (List Nat)
  existsAt : List String → Bool

/-- The observable pieces of one HTTP response: status code, the
Content-Type and Content-Length headers when sent, the Location header
when sent, and the body bytes. -/
structure Response where
  status : Nat
  contentType : Option String
  contentLength : Option Nat
  location : Option String
  body : List Nat
deriving DecidableEq, Repr

/-- Model of `mimetypes.guess_type`: the lowercased extension of the
last path component, where an extension needs a dot after at least one
non-dot character (CPython `posixpath.splitext`). -/
def extOf (s : String) : String :=
  let base := ((splitFirst (· == '/') s.data.reverse).1).reverse
  let core := base.dropWhile (· = '.')
  if core.contains '.' then
    String.mk (((splitFirst (· == '.') core.reverse).1).reverse.map Char.toLower)
  else ""

/-- Common entries of the stdlib `mimetypes` extension table. -/
def mimeTable : List (String × String) :=
  [("html", "text/html"), ("htm", "text/html"), ("css", "text/css"),
   ("js", "text/javascript"), ("json", "application/json"),
   ("png", "image/png"), ("jpg", "image/jpeg"), ("jpeg", "image/jpeg"),
   ("gif", "image/gif"), ("svg", "image/svg+xml"),
   ("ico", "image/vnd.microsoft.icon"), ("txt", "text/plain"),
   ("pdf", "application/pdf"), ("webp", "image/webp")]

/-- `mimetypes.guess_type(str(path))[0]` (main.py line 124). -/
def guessType (s : String) : Option String :=
  (mimeTable.find? (fun kv => kv.1 = extOf s)).map (fun kv => kv.2)

/-- Render a component path the way `str(path)` does. -/
def pathStr (p : List String) : String :=
  p.foldl (fun acc c => acc ++ "/" ++ c) ""

/-- Response built by `_send_html_file` when it serves (main.py
lines 115-119): fixed HTML content type, Content-Length equal to the
byte count of the body. -/
def htmlResp (status : Nat) (content : List Nat) : Response :=
  { status := status, contentType := some "text/html; charset=utf-8",
    contentLength := some content.length, location := none, body := content }

/-- Response built by `_send_static_file` (main.py lines 121-129):
guessed content type with the generic binary fallback, Content-Length
equal to the byte count of the body. -/
def staticResp (status : Nat) (p : List String) (content : List Nat) : Response :=
  { status := status,
    contentType := some ((guessType (pathStr p)).getD "application/octet-stream"),
    contentLength := some content.length, location := none, body := content }

/-- The minimal plain-text fallback body of `_send_404`
(main.py line 140). -/
def plainBody : List Nat :=
  (String.data "404 Not Found").map Char.toNat

/-- The fixed plain-text 404 response (main.py lines 140-145). -/
def plain404 : Response :=
  { status := 404, contentType := some "text/plain; charset=utf-8",
    contentLength := some plainBody.length, location := none, body := plainBody }

/-- `_send_404` (main.py lines 131-145), with fuel for the mutual
recursion with `_send_html_file`: if `templates/error.html` exists it is
served through `_send_html_file` with status 404 (whose failure branch
re-enters `_send_404`), otherwise the fixed plain-text 404 is sent.
`none` models the run that never produces a clean single response
(the mutual recursion never reaches either base case). -/
def send404F (fs : FS) (tdir : List String) : Nat → Option Response
  | 0 => none
  | fuel + 1 =>
    if fs.existsAt (tdir ++ ["error.html"]) then
      -- inlined body of _send_html_file (error_page, status=404)
      if fs.existsAt (tdir ++ ["error.html"]) &&
          (fs.file (tdir ++ ["error.html"])).isSome then
        some (htmlResp 404 ((fs.file (tdir ++ ["error.html"])).getD []))
      else send404F fs tdir fuel
    else some plain404

/-- `_send_html_file` (main.py lines 109-119): 404 unless the path
exists and is a regular file, else serve its bytes as HTML. -/
def send_html_file (fs : FS) (tdir p : List String) (status fuel : Nat) :
    Option Response :=
  if fs.existsAt p && (fs.file p).isSome then
    some (htmlResp status ((fs.file p).getD []))
  else send404F fs tdir fuel

/-- Sanity check: the fueled `_send_404` is one unfolding of
`_send_html_file` on the error page, exactly as in the source. -/
theorem send404F_succ (fs : FS) (tdir : List String) (fuel : Nat) :
    send404F fs tdir (fuel + 1) =
      if fs.existsAt (tdir ++ ["error.html"]) then
        send_html_file fs tdir (tdir ++ ["error.html"]) 404 fuel
      else some plain404 := rfl

/-- `do_GET` after the route has been extracted (main.py lines 62-85).
The catch-all `except Exception` converts the one exception the model
can raise (reading the favicon when it exists but is not a readable
regular file) into `_send_404`; all other modelled operations are
total. -/
def routeGET (fs : FS) (tdir sdir : List String) (route : String) (fuel : Nat) :
    Option Response :=
  if route = "/" ∨ route = "/index.html" then
    send_html_file fs tdir (tdir ++ ["index.html"]) 200 fuel
  else if route = "/message" ∨ route = "/message.html" then
    send_html_file fs tdir (tdir ++ ["message.html"]) 200 fuel
  else if route = "/favicon.ico" then
    if fs.existsAt (sdir ++ ["favicon.ico"]) then
      match fs.file (sdir ++ ["favicon.ico"]) with
      | some c => some (staticResp 200 (sdir ++ ["favicon.ico"]) c)
      | none => send404F fs tdir fuel
    else send404F fs tdir fuel
  else if strStartsWith route "/static/" then
    if is_under (resolveJoin sdir (strDrop route 8)) sdir &&
        (fs.file (resolveJoin sdir (strDrop route 8))).isSome then
      some (staticResp 200 (resolveJoin sdir (strDrop route 8))
        ((fs.file (resolveJoin sdir (strDrop route 8))).getD []))
    else send404F fs tdir fuel
  else send404F fs tdir fuel

/-- `do_GET` (main.py lines 58-85): parse the request path, then route. -/
def do_GET (fs : FS) (tdir sdir : List String) (reqPath : String) (fuel : Nat) :
    Option Response :=
  routeGET fs tdir sdir (urlparsePath reqPath) fuel

/-- The 303 redirect sent by `do_POST` (main.py lines 103-105). -/
def redirect303 : Response :=
  { status := 303, contentType := none, contentLength := none,
    location := some "/message.html?status=ok", body := [] }

/-- `self.rfile.read(length)`: a negative length reads to EOF,
otherwise exactly `length` bytes of the available stream. -/
def readBody (rfile : List Nat) (n : Int) : List Nat :=
  if n < 0 then rfile else rfile.take n.toNat

/-- Result of one `do_POST`: the datagram payload handed to the UDP
socket (if any) and the response written (none models an uncaught
exception, after which no response is sent). -/
structure PostResult where
  sent : Option (List Nat)
  response : Option Response
deriving DecidableEq, Repr

/-- `do_POST` (main.py lines 87-105).  Non-`/submit` paths get the 404
behavior; otherwise the Content-Length header (default string "0") is
parsed with `int` — a `ValueError` there escapes, so no response — the
body is read, sent as one datagram, and the 303 redirect is written.
`sendOk` records whether the UDP send raised `socket.error`; that error
is logged and swallowed, so nothing downstream depends on it. -/
def do_POST (reqPath : String) (clHeader : Option String) (rfile : List Nat)
    (sendOk : Bool) (fs : FS) (tdir : List String) (fuel : Nat) : PostResult :=
  if reqPath ≠ "/submit" then
    { sent := none, response := send404F fs tdir fuel }
  else
    match pyInt (clHeader.getD "0") with
    | none => { sent := none, response := none }
    | some n => { sent := some (readBody rfile n), response := some redirect303 }

/-! ## UTF-8 codecs (bytes.decode and unquote) -/

/-- A UTF-8 continuation byte. -/
def isCont (b : Nat) : Bool := 128 ≤ b && b ≤ 191

/-- Valid second byte of a three-byte UTF-8 sequence headed by `b`
(surrogates and overlong forms excluded, as in CPython). -/
def utf8Valid2of3 (b b2 : Nat) : Bool :=
  (b == 224 && 160 ≤ b2 && b2 ≤ 191) ||
  (225 ≤ b && b ≤ 236 && isCont b2) ||
  (b == 237 && 128 ≤ b2 && b2 ≤ 159) ||
  (238 ≤ b && b ≤ 239 && isCont b2)

/-- Valid second byte of a four-byte UTF-8 sequence headed by `b`
(planes above U+10FFFF and overlong forms excluded). -/
def utf8Valid2of4 (b b2 : Nat) : Bool :=
  (b == 240 && 144 ≤ b2 && b2 ≤ 191) ||
  (241 ≤ b && b ≤ 243 && isCont b2) ||
  (b == 244 && 128 ≤ b2 && b2 ≤ 143)

/-- UTF-8 decoding with the CPython error handlers: on an invalid
maximal subpart, `repl = true` emits one U+FFFD (errors="replace"),
`repl = false` emits nothing (errors="ignore"); decoding then resumes
at the first unconsumed byte.  The fuel only bounds the number of
decoded units; each step consumes at least one byte, so fuel equal to
the byte count is always enough. -/
def utf8Go (repl : Bool) : Nat → List Nat → List Char
  | 0, _ => []
  | _, [] => []
  | fuel + 1, b :: rest =>
    let emit : List Char := if repl then [Char.ofNat 65533] else []
    if b < 128 then Char.ofNat b :: utf8Go repl fuel rest
    else if b ≤ 193 then emit ++ utf8Go repl fuel rest
    else if b ≤ 223 then
      match rest with
      | [] => emit
      | b2 :: rest2 =>
        if isCont b2 then
          Char.ofNat ((b - 192) * 64 + (b2 - 128)) :: utf8Go repl fuel rest2
        else emit ++ utf8Go repl fuel rest
    else if b ≤ 239 then
      match rest with
      | [] => emit
      | b2 :: rest2 =>
        if utf8Valid2of3 b b2 then
          match rest2 with
          | [] => emit
          | b3 :: rest3 =>
            if isCont b3 then
              Char.ofNat ((b - 224) * 4096 + (b2 - 128) * 64 + (b3 - 128)) ::
                utf8Go repl fuel rest3
            else emit ++ utf8Go repl fuel rest2
        else emit ++ utf8Go repl fuel rest
    else if b ≤ 244 then
      match rest with
      | [] => emit
      | b2 :: rest2 =>
        if utf8Valid2of4 b b2 then
          match rest2 with
          | [] => emit
          | b3 :: rest3 =>
            if isCont b3 then
              match rest3 with
              | [] => emit
              | b4 :: rest4 =>
                if isCont b4 then
                  Char.ofNat ((b - 240) * 262144 + (b2 - 128) * 4096 +
                    (b3 - 128) * 64 + (b4 - 128)) :: utf8Go repl fuel rest4
                else emit ++ utf8Go repl fuel rest3
            else emit ++ utf8Go repl fuel rest2
        else emit ++ utf8Go repl fuel rest
    else emit ++ utf8Go repl fuel rest

/-- `bytes.decode("utf-8", errors="ignore")` (main.py line 207). -/
def utf8DecodeIgnore (bs : List Nat) : List Char :=
  utf8Go false bs.length bs

/-- `bytes.decode("utf-8", errors="replace")`, used by
`urllib.parse.unquote`. -/
def utf8DecodeReplace (bs : List Nat) : List Char :=
  utf8Go true bs.length bs

/-- Hexadecimal digit value, as accepted by percent escapes. -/
def hexVal (c : Char) : Option Nat :=
  if 48 ≤ c.toNat ∧ c.toNat ≤ 57 then some (c.toNat - 48)
  else if 65 ≤ c.toNat ∧ c.toNat ≤ 70 then some (c.toNat - 55)
  else if 97 ≤ c.toNat ∧ c.toNat ≤ 102 then some (c.toNat - 87)
  else none

/-- Longest leading run of valid `%XX` escapes, as the bytes it denotes
plus the remainder.  `unquote` decodes each maximal run as one UTF-8
byte string. -/
def pctRun : List Char → List Nat × List Char
  | '%' :: h1 :: h2 :: rest =>
    match hexVal h1, hexVal h2 with
    | some a, some b =>
      let r := pctRun rest
      ((a * 16 + b) :: r.1, r.2)
    | _, _ => ([], '%' :: h1 :: h2 :: rest)
  | cs => ([], cs)

/-- Percent decoding (CPython `urllib.parse.unquote` with the default
utf-8/replace): literal text is kept, each maximal `%XX` run is decoded
as UTF-8 with errors="replace", malformed escapes stay literal. -/
def percentDecodeGo : Nat → List Char → List Char
  | 0, _ => []
  | _, [] => []
  | fuel + 1, '%' :: t =>
    match pctRun ('%' :: t) with
    | ([], _) => '%' :: percentDecodeGo fuel t
    | (bs, rest) => utf8DecodeReplace bs ++ percentDecodeGo fuel rest
  | fuel + 1, c :: t => c :: percentDecodeGo fuel t

/-- `urllib.parse.unquote_plus`-style field decoding as done by
`parse_qsl`: `+` becomes space first, then percent decoding. -/
def unquotePlus (cs : List Char) : List Char :=
  let plussed := cs.map fun c => if c = '+' then ' ' else c
  percentDecodeGo plussed.length plussed

/-- One `name=value` piece of a query string, under
`keep_blank_values=True`: empty pieces are dropped, a piece without `=`
keeps its name with a blank value (CPython `parse_qsl`). -/
def qsPair (pair : List Char) : Option (List Char × List Char) :=
  if pair = [] then none
  else
    match splitFirst (· == '=') pair with
    | (name, some value) => some (unquotePlus name, unquotePlus value)
    | (_, none) => some (unquotePlus pair, [])

/-- `urllib.parse.parse_qs(s, keep_blank_values=True)` as the ordered
pair list it is built from (main.py line 211). -/
def parse_qsl (cs : List Char) : List (List Char × List Char) :=
  (splitChar '&' cs).filterMap qsPair

/-- `parsed.get(key, [""])[0]`: the first value recorded for `key`,
or the empty string (main.py lines 212-213). -/
def getField (pairs : List (List Char × List Char)) (key : List Char) : List Char :=
  match pairs.find? (fun p => p.1 = key) with
  | some p => p.2
  | none => []

/-- The stripped `username` and `message` fields the storage server
extracts from one datagram payload (main.py lines 207-213). -/
def decodeFields (payload : List Nat) : List Char × List Char :=
  let pairs := parse_qsl (utf8DecodeIgnore payload)
  (pyStrip (getField pairs (String.data "username")),
   pyStrip (getField pairs (String.data "message")))

/-! ## Timestamps -/

/-- The fields of a `datetime.datetime` value. -/
structure PyDateTime where
  year : Nat
  month : Nat
  day : Nat
  hour : Nat
  minute : Nat
  second : Nat
  microsecond : Nat
deriving DecidableEq, Repr

/-- The ranges `datetime.now()` guarantees; the year is kept in
1000..9999 where `%Y` renders as exactly four digits on every
platform. -/
def validDT (dt : PyDateTime) : Prop :=
  1000 ≤ dt.year ∧ dt.year ≤ 9999 ∧ 1 ≤ dt.month ∧ dt.month ≤ 12 ∧
  1 ≤ dt.day ∧ dt.day ≤ 31 ∧ dt.hour ≤ 23 ∧ dt.minute ≤ 59 ∧
  dt.second ≤ 59 ∧ dt.microsecond ≤ 999999

instance (dt : PyDateTime) : Decidable (validDT dt) := by
  unfold validDT; infer_instance

/-- Chronological order on datetimes: lexicographic on the fields,
exactly as `datetime.datetime` compares. -/
def dtLt (a b : PyDateTime) : Prop :=
  a.year < b.year ∨ (a.year = b.year ∧ (a.month < b.month ∨ (a.month = b.month ∧
    (a.day < b.day ∨ (a.day = b.day ∧ (a.hour < b.hour ∨ (a.hour = b.hour ∧
    (a.minute < b.minute ∨ (a.minute = b.minute ∧ (a.second < b.second ∨
    (a.second = b.second ∧ a.microsecond < b.microsecond)))))))))))

instance (a b : PyDateTime) : Decidable (dtLt a b) := by
  unfold dtLt; infer_instance

/-- The character of a decimal digit. -/
def digitChar (n : Nat) : Char := Char.ofNat (48 + n)

/-- Zero-padded fixed-width decimal rendering (the `%02d`-style fields
of `strftime`). -/
def padNum : Nat → Nat → List Char
  | 0, _ => []
  | w + 1, n => padNum w (n / 10) ++ [digitChar (n % 10)]

/-- `datetime.now().strftime("%Y-%m-%d %H:%M:%S.%f")`
(main.py line 217). -/
def formatDate (dt : PyDateTime) : List Char :=
  padNum 4 dt.year ++ ('-' :: (padNum 2 dt.month ++ ('-' :: (padNum 2 dt.day ++
    (' ' :: (padNum 2 dt.hour ++ (':' :: (padNum 2 dt.minute ++
    (':' :: (padNum 2 dt.second ++ ('.' :: padNum 6 dt.microsecond)))))))))))

/-- The shape `YYYY-MM-DD HH:MM:SS.ffffff` (microsecond precision). -/
def matchesTimestampFormat : List Char → Bool
  | [y1, y2, y3, y4, a, mo1, mo2, b, d1, d2, c, h1, h2, d, mi1, mi2, e,
     s1, s2, f, u1, u2, u3, u4, u5, u6] =>
    y1.isDigit && y2.isDigit && y3.isDigit && y4.isDigit && (a == '-') &&
    mo1.isDigit && mo2.isDigit && (b == '-') && d1.isDigit && d2.isDigit &&
    (c == ' ') && h1.isDigit && h2.isDigit && (d == ':') && mi1.isDigit &&
    mi2.isDigit && (e == ':') && s1.isDigit && s2.isDigit && (f == '.') &&
    u1.isDigit && u2.isDigit && u3.isDigit && u4.isDigit && u5.isDigit &&
    u6.isDigit
  | _ => false

/-! ## The storage server receive loop -/

/-- The document inserted into the collection (main.py lines 216-220). -/
structure MessageRecord where
  date : List Char
  username : List Char
  message : List Char
deriving DecidableEq, Repr

/-- One iteration of the receive loop, as the environment sees it:
the datagram bytes, the clock reading `datetime.now()` returns in that
iteration, and whether `insert_one` would succeed if attempted. -/
structure LoopEvent where
  data : List Nat
  now : PyDateTime
  insertOk : Bool
deriving DecidableEq, Repr

/-- Observable outcome of one loop iteration. -/
inductive SockOutcome where
  | saved : MessageRecord → SockOutcome
  | skippedIncomplete : SockOutcome
  | insertFailed : MessageRecord → SockOutcome
deriving DecidableEq, Repr

/-- The document built in one iteration (main.py lines 216-220). -/
def docOf (ev : LoopEvent) : MessageRecord :=
  { date := formatDate ev.now,
    username := (decodeFields ev.data).1,
    message := (decodeFields ev.data).2 }

/-- One body of the receive loop (main.py lines 206-229): decode and
parse the datagram, build the timestamped document, insert it only when
both fields are non-empty (Python truthiness of the stripped strings);
a failing insert is caught and logged, an incomplete payload is
skipped. -/
def stepSocket (ev : LoopEvent) : SockOutcome :=
  if (decodeFields ev.data).1 ≠ [] ∧ (decodeFields ev.data).2 ≠ [] then
    if ev.insertOk then SockOutcome.saved (docOf ev)
    else SockOutcome.insertFailed (docOf ev)
  else SockOutcome.skippedIncomplete

/-- The receive loop over a finite schedule of datagrams: every
datagram is processed, in order, each by one `stepSocket`. -/
def runSocket (evs : List LoopEvent) : List SockOutcome :=
  evs.map stepSocket

/-- The records actually persisted in the store by a run. -/
def persisted (evs : List LoopEvent) : List MessageRecord :=
  (runSocket evs).filterMap fun o =>
    match o with
    | SockOutcome.saved r => some r
    | _ => none

/-! ## Helper lemmas -/

/-- A lexicographic comparison is preserved under a common prefix. -/
theorem lex_append_left {α : Type} {r : α → α → Prop} :
    ∀ (xs t1 t2 : List α), List.Lex r t1 t2 → List.Lex r (xs ++ t1) (xs ++ t2) := by
  intro xs
  induction xs with
  | nil => intro t1 t2 h; simpa using h
  | cons c cs ih => intro t1 t2 h; exact List.Lex.cons (ih t1 t2 h)

/-- Two equal-length blocks that compare strictly keep comparing
strictly whatever follows them. -/
theorem lex_append_of_lex {α : Type} {r : α → α → Prop} :
    ∀ (l1 l2 t1 t2 : List α), l1.length = l2.length → List.Lex r l1 l2 →
      List.Lex r (l1 ++ t1) (l2 ++ t2) := by
  intro l1
  induction l1 with
  | nil =>
    intro l2 t1 t2 hlen h
    cases h with
    | nil => simp at hlen
  | cons a l1 ih =>
    intro l2 t1 t2 hlen h
    cases h with
    | cons h2 => exact List.Lex.cons (ih _ _ _ (by simpa using hlen) h2)
    | rel hr => exact List.Lex.rel hr

theorem padNum_length : ∀ (w n : Nat), (padNum w n).length = w := by
  intro w
  induction w with
  | zero => intro n; rfl
  | succ w ih => intro n; simp [padNum, ih]

theorem digitChar_lt {d e : Nat} (hd : d < 10) (he : e < 10) (h : d < e) :
    digitChar d < digitChar e := by
  interval_cases d <;> interval_cases e <;> revert h <;> decide

/-- Fixed-width zero-padded numerals compare lexicographically as the
numbers they denote. -/
theorem padNum_lt : ∀ (w n m : Nat), n < m → m < 10 ^ w →
    List.Lex (· < ·) (padNum w n) (padNum w m) := by
  intro w
  induction w with
  | zero => intro n m h hm; simp [pow_zero] at hm; omega
  | succ w ih =>
    intro n m h hm
    have hm10 : m / 10 < 10 ^ w := by
      rw [Nat.div_lt_iff_lt_mul (by norm_num : (0:Nat) < 10)]
      rw [pow_succ] at hm
      exact hm
    rcases Nat.lt_or_ge (n / 10) (m / 10) with hd | hd
    · simp only [padNum]
      exact lex_append_of_lex _ _ _ _
        (by rw [padNum_length, padNum_length]) (ih _ _ hd hm10)
    · have hdeq : n / 10 = m / 10 :=
        Nat.le_antisymm (Nat.div_le_div_right (Nat.le_of_lt h)) hd
      have hmod : n % 10 < m % 10 := by omega
      simp only [padNum]
      rw [hdeq]
      apply lex_append_left
      exact List.Lex.rel
        (digitChar_lt (Nat.mod_lt _ (by norm_num)) (Nat.mod_lt _ (by norm_num)) hmod)

theorem digit_isDigit (k : Nat) : (digitChar (k % 10)).isDigit = true := by
  have h : k % 10 < 10 := Nat.mod_lt _ (by norm_num)
  revert h
  generalize k % 10 = d
  intro h
  interval_cases d <;> decide

/-- `formatDate`, fully unfolded to its 26 characters. -/
theorem formatDate_explicit (dt : PyDateTime) :
    formatDate dt =
      [digitChar (dt.year / 10 / 10 / 10 % 10), digitChar (dt.year / 10 / 10 % 10),
       digitChar (dt.year / 10 % 10), digitChar (dt.year % 10), '-',
       digitChar (dt.month / 10 % 10), digitChar (dt.month % 10), '-',
       digitChar (dt.day / 10 % 10), digitChar (dt.day % 10), ' ',
       digitChar (dt.hour / 10 % 10), digitChar (dt.hour % 10), ':',
       digitChar (dt.minute / 10 % 10), digitChar (dt.minute % 10), ':',
       digitChar (dt.second / 10 % 10), digitChar (dt.second % 10), '.',
       digitChar (dt.microsecond / 10 / 10 / 10 / 10 / 10 % 10),
       digitChar (dt.microsecond / 10 / 10 / 10 / 10 % 10),
       digitChar (dt.microsecond / 10 / 10 / 10 % 10),
       digitChar (dt.microsecond / 10 / 10 % 10),
       digitChar (dt.microsecond / 10 % 10), digitChar (dt.microsecond % 10)] := rfl

theorem formatDate_matches (dt : PyDateTime) :
    matchesTimestampFormat (formatDate dt) = true := by
  rw [formatDate_explicit]
  simp [matchesTimestampFormat, digit_isDigit]

/-- Chronologically later valid datetimes format to lexicographically
larger timestamp strings. -/
theorem formatDate_lt (a b : PyDateTime) (ha : validDT a) (hb : validDT b)
    (h : dtLt a b) : List.Lex (· < ·) (formatDate a) (formatDate b) := by
  obtain ⟨hay1, hay2, ham1, ham2, had1, had2, hah, hami, has, hau⟩ := ha
  obtain ⟨hby1, hby2, hbm1, hbm2, hbd1, hbd2, hbh, hbmi, hbs, hbu⟩ := hb
  unfold formatDate
  rcases h with hy | ⟨hy, h⟩
  · exact lex_append_of_lex _ _ _ _ (by rw [padNum_length, padNum_length])
      (padNum_lt 4 _ _ hy (by norm_num; omega))
  rw [hy]
  apply lex_append_left
  apply List.Lex.cons
  rcases h with hmo | ⟨hmo, h⟩
  · exact lex_append_of_lex _ _ _ _ (by rw [padNum_length, padNum_length])
      (padNum_lt 2 _ _ hmo (by norm_num; omega))
  rw [hmo]
  apply lex_append_left
  apply List.Lex.cons
  rcases h with hd | ⟨hd, h⟩
  · exact lex_append_of_lex _ _ _ _ (by rw [padNum_length, padNum_length])
      (padNum_lt 2 _ _ hd (by norm_num; omega))
  rw [hd]
  apply lex_append_left
  apply List.Lex.cons
  rcases h with hh | ⟨hh, h⟩
  · exact lex_append_of_lex _ _ _ _ (by rw [padNum_length, padNum_length])
      (padNum_lt 2 _ _ hh (by norm_num; omega))
  rw [hh]
  apply lex_append_left
  apply List.Lex.cons
  rcases h with hmi | ⟨hmi, h⟩
  · exact lex_append_of_lex _ _ _ _ (by rw [padNum_length, padNum_length])
      (padNum_lt 2 _ _ hmi (by norm_num; omega))
  rw [hmi]
  apply lex_append_left
  apply List.Lex.cons
  rcases h with hs | ⟨hs, h⟩
  · exact lex_append_of_lex _ _ _ _ (by rw [padNum_length, padNum_length])
      (padNum_lt 2 _ _ hs (by norm_num; omega))
  rw [hs]
  apply lex_append_left
  apply List.Lex.cons
  exact padNum_lt 6 _ _ h (by norm_num; omega)

/-- Transfer of an adjacent-pairs chain along a map, using a validity
predicate that holds on the list. -/
theorem chain'_transfer {α β : Type} (R : α → α → Prop) (S : β → β → Prop)
    (P : α → Prop) (f : α → β) :
    ∀ l : List α, (∀ x ∈ l, P x) →
      (∀ x y, P x → P y → R x y → S (f x) (f y)) →
      List.Chain' R l → List.Chain' S (l.map f) := by
  intro l
  induction l with
  | nil => intro _ _ _; simp
  | cons a t ih =>
    intro hP himp hch
    cases t with
    | nil => simp
    | cons b t2 =>
      rw [List.map_cons, List.map_cons, List.chain'_cons]
      rw [List.chain'_cons] at hch
      refine ⟨himp a b (hP a (by simp)) (hP b (by simp)) hch.1, ?_⟩
      rw [← List.map_cons]
      exact ih (fun x hx => hP x (List.mem_cons_of_mem a hx)) himp hch.2

/-- The error page is either absent or a servable regular file; under
this the not-found behavior terminates in one response. -/
def errorPageGood (fs : FS) (tdir : List String) : Prop :=
  fs.existsAt (tdir ++ ["error.html"]) = true →
    (fs.file (tdir ++ ["error.html"])).isSome = true

theorem send404F_ok (fs : FS) (tdir : List String) (hgood : errorPageGood fs tdir) :
    ∀ fuel, 1 ≤ fuel → ∃ r, send404F fs tdir fuel = some r ∧ r.status = 404 := by
  intro fuel hf
  cases fuel with
  | zero => omega
  | succ f =>
    by_cases hex : fs.existsAt (tdir ++ ["error.html"]) = true
    · have hs := hgood hex
      refine ⟨htmlResp 404 ((fs.file (tdir ++ ["error.html"])).getD []), ?_, rfl⟩
      simp [send404F, hex, hs]
    · refine ⟨plain404, ?_, rfl⟩
      simp [send404F, hex]

/-- A route under the static mount is none of the named routes. -/
theorem static_route_ne (r : String) (h : strStartsWith r "/static/" = true) :
    r ≠ "/" ∧ r ≠ "/index.html" ∧ r ≠ "/message" ∧ r ≠ "/message.html" ∧
      r ≠ "/favicon.ico" := by
  refine ⟨?_, ?_, ?_, ?_, ?_⟩ <;> rintro rfl <;> revert h <;> decide

/-! ## Sample data used by the witnesses -/

def tdirS : List String := ["srv", "templates"]

def sdirS : List String := ["srv", "static"]

def sampleFS : FS :=
  { file := fun p =>
      if p = ["srv", "templates", "index.html"] then some [72, 73]
      else if p = ["srv", "templates", "message.html"] then some [77]
      else if p = ["srv", "templates", "error.html"] then some [69, 82]
      else if p = ["srv", "static", "style.css"] then some [98, 99]
      else none,
    existsAt := fun p =>
      decide (p = ["srv", "templates", "index.html"] ∨
        p = ["srv", "templates", "message.html"] ∨
        p = ["srv", "templates", "error.html"] ∨
        p = ["srv", "static", "style.css"]) }

/-- ASCII byte encoding, for building sample datagram payloads. -/
def sBytes (s : String) : List Nat := s.data.map Char.toNat

def evA : LoopEvent :=
  { data := sBytes "username=a&message=b",
    now := { year := 2026, month := 10, day := 12, hour := 7, minute := 0,
             second := 0, microsecond := 0 },
    insertOk := true }

def evB : LoopEvent :=
  { data := sBytes "username=c&message=d",
    now := { year := 2026, month := 10, day := 12, hour := 7, minute := 0,
             second := 0, microsecond := 1 },
    insertOk := true }

def evFail : LoopEvent :=
  { data := sBytes "username=a&message=b",
    now := { year := 2026, month := 10, day := 12, hour := 7, minute := 0,
             second := 0, microsecond := 0 },
    insertOk := false }

def evEmpty : LoopEvent :=
  { data := sBytes "username=&message=hi",
    now := { year := 2026, month := 10, day := 12, hour := 7, minute := 0,
             second := 0, microsecond := 0 },
    insertOk := true }

/-- Filesystem state in which `templates/error.html` exists but is not
a regular file (for example a directory of that name). -/
def badErrorFS : FS :=
  { file := fun _ => none,
    existsAt := fun p => decide (p = ["srv", "templates", "error.html"]) }

/-! ## Claims -/

/-- C1: for every GET request whose path starts with the static mount
and whose resolved target falls outside the static root, the server
responds with the not-found behavior; no file outside the root is
opened or served. -/
theorem static_traversal_rejected (fs : FS) (tdir sdir : List String)
    (reqPath : String) (fuel : Nat)
    (hpre : strStartsWith (urlparsePath reqPath) "/static/" = true)
    (hout : is_under (resolveJoin sdir (strDrop (urlparsePath reqPath) 8)) sdir
      = false) :
    do_GET fs tdir sdir reqPath fuel = send404F fs tdir fuel := by
  obtain ⟨h1, h2, h3, h4, h5⟩ := static_route_ne _ hpre
  unfold do_GET routeGET
  rw [if_neg (fun h => h.elim h1 h2), if_neg (fun h => h.elim h3 h4), if_neg h5,
    if_pos hpre]
  have hfalse : (is_under (resolveJoin sdir (strDrop (urlparsePath reqPath) 8)) sdir &&
      (fs.file (resolveJoin sdir (strDrop (urlparsePath reqPath) 8))).isSome)
      = false := by
    rw [hout, Bool.false_and]
  rw [hfalse]
  simp

theorem static_traversal_rejected_witness :
    strStartsWith (urlparsePath "/static/../../etc/passwd") "/static/" = true ∧
    is_under (resolveJoin sdirS (strDrop (urlparsePath "/static/../../etc/passwd") 8))
      sdirS = false ∧
    do_GET sampleFS tdirS sdirS "/static/../../etc/passwd" 1 =
      send404F sampleFS tdirS 1 :=
  ⟨by decide, by decide,
    static_traversal_rejected sampleFS tdirS sdirS "/static/../../etc/passwd" 1
      (by decide) (by decide)⟩

/-- C2: a datagram payload whose `username` or `message` field is empty
after trimming (absent included) inserts nothing; the insert is
skipped. -/
theorem empty_field_skips_insert (ev : LoopEvent) (rest : List LoopEvent)
    (h : (decodeFields ev.data).1 = [] ∨ (decodeFields ev.data).2 = []) :
    stepSocket ev = SockOutcome.skippedIncomplete ∧
    persisted (ev :: rest) = persisted rest := by
  have hstep : stepSocket ev = SockOutcome.skippedIncomplete := by
    unfold stepSocket
    rcases h with h | h
    · rw [if_neg (fun hc => hc.1 h)]
    · rw [if_neg (fun hc => hc.2 h)]
  refine ⟨hstep, ?_⟩
  simp [persisted, runSocket, hstep]

theorem empty_field_skips_insert_witness :
    ((decodeFields evEmpty.data).1 = [] ∨ (decodeFields evEmpty.data).2 = []) ∧
    stepSocket evEmpty = SockOutcome.skippedIncomplete :=
  ⟨by decide, (empty_field_skips_insert evEmpty [] (by decide)).1⟩

/-- C3: POST `/submit` with a well-formed Content-Length always answers
the 303 redirect to `/message.html?status=ok`, and the whole result is
independent of whether the datagram send to the bridge fails (the
failure is logged and swallowed). -/
theorem submit_always_redirects (clHeader : Option String) (rfile : List Nat)
    (ok1 ok2 : Bool) (fs : FS) (tdir : List String) (fuel : Nat) (n : Int)
    (hcl : pyInt (clHeader.getD "0") = some n) :
    (do_POST "/submit" clHeader rfile ok1 fs tdir fuel).response = some redirect303 ∧
    do_POST "/submit" clHeader rfile ok1 fs tdir fuel =
      do_POST "/submit" clHeader rfile ok2 fs tdir fuel := by
  unfold do_POST
  rw [if_neg (fun h => h rfl), hcl]
  exact ⟨rfl, rfl⟩

theorem submit_always_redirects_witness :
    pyInt ((some "5" : Option String).getD "0") = some 5 ∧
    (do_POST "/submit" (some "5") (sBytes "username=a&message=b") true sampleFS
      tdirS 1).response = some redirect303 :=
  ⟨by decide,
    (submit_always_redirects (some "5") (sBytes "username=a&message=b") true false
      sampleFS tdirS 1 5 (by decide)).1⟩

/-- C4: a GET whose path is none of the explicit routes (and, when under
the static mount, does not resolve to an existing regular file inside
the root) resolves to the not-found behavior, which answers status 404
whenever the error page is absent or servable; no exception surfaces. -/
theorem unmatched_get_not_found (fs : FS) (tdir sdir : List String)
    (reqPath : String) (fuel : Nat)
    (h1 : urlparsePath reqPath ≠ "/") (h2 : urlparsePath reqPath ≠ "/index.html")
    (h3 : urlparsePath reqPath ≠ "/message")
    (h4 : urlparsePath reqPath ≠ "/message.html")
    (h5 : urlparsePath reqPath ≠ "/favicon.ico")
    (h6 : strStartsWith (urlparsePath reqPath) "/static/" = true →
      ¬(is_under (resolveJoin sdir (strDrop (urlparsePath reqPath) 8)) sdir = true ∧
        (fs.file (resolveJoin sdir (strDrop (urlparsePath reqPath) 8))).isSome
          = true)) :
    do_GET fs tdir sdir reqPath fuel = send404F fs tdir fuel ∧
    (errorPageGood fs tdir → 1 ≤ fuel →
      ∃ r, do_GET fs tdir sdir reqPath fuel = some r ∧ r.status = 404) := by
  have hmain : do_GET fs tdir sdir reqPath fuel = send404F fs tdir fuel := by
    unfold do_GET routeGET
    rw [if_neg (fun h => h.elim h1 h2), if_neg (fun h => h.elim h3 h4), if_neg h5]
    by_cases hss : strStartsWith (urlparsePath reqPath) "/static/" = true
    · rw [if_pos hss]
      have hno := h6 hss
      have hff : (is_under (resolveJoin sdir (strDrop (urlparsePath reqPath) 8)) sdir &&
          (fs.file (resolveJoin sdir (strDrop (urlparsePath reqPath) 8))).isSome)
          = false := by
        cases hu : is_under (resolveJoin sdir (strDrop (urlparsePath reqPath) 8)) sdir
        · rw [Bool.false_and]
        · cases hfi : (fs.file (resolveJoin sdir (strDrop (urlparsePath reqPath) 8))).isSome
          · rw [Bool.and_false]
          · exact absurd ⟨hu, hfi⟩ hno
      rw [hff]
      simp
    · rw [if_neg hss]
  refine ⟨hmain, fun hg hf => ?_⟩
  obtain ⟨r, hr, hst⟩ := send404F_ok fs tdir hg fuel hf
  exact ⟨r, hmain.trans hr, hst⟩

theorem unmatched_get_not_found_witness :
    urlparsePath "/nope" ≠ "/" ∧ errorPageGood sampleFS tdirS ∧
    do_GET sampleFS tdirS sdirS "/nope" 1 = send404F sampleFS tdirS 1 :=
  ⟨by decide, fun _ => by decide,
    (unmatched_get_not_found sampleFS tdirS sdirS "/nope" 1 (by decide) (by decide)
      (by decide) (by decide) (by decide) (by decide)).1⟩

/-- C5: every file served carries a Content-Length equal to the exact
byte count of the body; the named HTML routes carry the fixed HTML
content type, and static files carry the type guessed from the file
extension with the generic binary fallback. -/
theorem served_content_metadata :
    (∀ (fs : FS) (tdir p : List String) (st fuel : Nat) (c : List Nat),
        fs.existsAt p = true → fs.file p = some c →
        send_html_file fs tdir p st fuel = some (htmlResp st c) ∧
        (htmlResp st c).contentLength = some (htmlResp st c).body.length ∧
        (htmlResp st c).contentType = some "text/html; charset=utf-8") ∧
    (∀ (st : Nat) (p : List String) (c : List Nat),
        (staticResp st p c).contentLength = some (staticResp st p c).body.length ∧
        (staticResp st p c).contentType =
          some ((guessType (pathStr p)).getD "application/octet-stream")) := by
  constructor
  · intro fs tdir p st fuel c h1 h2
    refine ⟨?_, rfl, rfl⟩
    simp [send_html_file, h1, h2]
  · intro st p c
    exact ⟨rfl, rfl⟩

theorem served_content_metadata_witness :
    sampleFS.existsAt ["srv", "templates", "index.html"] = true ∧
    sampleFS.file ["srv", "templates", "index.html"] = some [72, 73] ∧
    send_html_file sampleFS tdirS ["srv", "templates", "index.html"] 200 1 =
      some (htmlResp 200 [72, 73]) :=
  ⟨by decide, by decide,
    (served_content_metadata.1 sampleFS tdirS ["srv", "templates", "index.html"]
      200 1 [72, 73] (by decide) (by decide)).1⟩

/-- C6: the not-found behavior is claimed never to fail; but when the
error page exists without being a servable regular file the code
recurses between `_send_404` and `_send_html_file` without reaching
either base case — no fuel produces a response. -/
theorem error_page_directory_diverges :
    ∀ fuel, send404F badErrorFS tdirS fuel = none := by
  intro fuel
  induction fuel with
  | zero => rfl
  | succ f ih => simpa [send404F, badErrorFS, tdirS] using ih

/-- C7: a run in which every payload has both fields non-empty after
trimming and every insert succeeds persists exactly one record per
payload, each date in the strftime microsecond format, and the dates
strictly increase when the clock readings do. -/
theorem complete_payloads_persist_ordered (evs : List LoopEvent)
    (hc : ∀ ev ∈ evs, (decodeFields ev.data).1 ≠ [] ∧ (decodeFields ev.data).2 ≠ [])
    (hok : ∀ ev ∈ evs, ev.insertOk = true)
    (hv : ∀ ev ∈ evs, validDT ev.now)
    (hm : List.Chain' dtLt (evs.map LoopEvent.now)) :
    (persisted evs).length = evs.length ∧
    (∀ r ∈ persisted evs, matchesTimestampFormat r.date = true) ∧
    List.Chain' (fun r1 r2 : MessageRecord => List.Lex (· < ·) r1.date r2.date)
      (persisted evs) := by
  have hp : persisted evs = evs.map docOf := by
    clear hv hm
    induction evs with
    | nil => rfl
    | cons e t ih =>
      have hce := hc e (List.mem_cons_self e t)
      have hoe := hok e (List.mem_cons_self e t)
      have hstep : stepSocket e = SockOutcome.saved (docOf e) := by
        unfold stepSocket
        rw [if_pos hce, hoe, if_pos rfl]
      have ht : persisted t = t.map docOf :=
        ih (fun ev hm2 => hc ev (List.mem_cons_of_mem e hm2))
          (fun ev hm2 => hok ev (List.mem_cons_of_mem e hm2))
      simp only [persisted, runSocket, List.map_cons, List.filterMap_cons, hstep]
      simpa [persisted, runSocket] using ht
  refine ⟨by rw [hp, List.length_map], ?_, ?_⟩
  · intro r hr
    rw [hp] at hr
    obtain ⟨ev, hev, rfl⟩ := List.mem_map.1 hr
    exact formatDate_matches ev.now
  · rw [hp]
    have hm2 : List.Chain' (fun a b : LoopEvent => dtLt a.now b.now) evs :=
      (List.chain'_map LoopEvent.now).1 hm
    exact chain'_transfer (fun a b => dtLt a.now b.now)
      (fun r1 r2 : MessageRecord => List.Lex (· < ·) r1.date r2.date)
      (fun ev => validDT ev.now) docOf evs hv
      (fun x y px py hxy => formatDate_lt x.now y.now px py hxy) hm2

theorem complete_payloads_persist_ordered_witness :
    (∀ ev ∈ [evA, evB], (decodeFields ev.data).1 ≠ [] ∧
      (decodeFields ev.data).2 ≠ []) ∧
    List.Chain' dtLt ([evA, evB].map LoopEvent.now) ∧
    (persisted [evA, evB]).length = 2 := by
  have hchain : List.Chain' dtLt ([evA, evB].map LoopEvent.now) := by
    simp only [List.map_cons, List.map_nil, List.chain'_cons, List.chain'_singleton,
      and_true]
    decide
  exact ⟨by decide, hchain,
    (complete_payloads_persist_ordered [evA, evB] (by decide) (by decide)
      (by decide) hchain).1.trans rfl⟩

/-- C8: a failed store insert is contained in its own iteration: the
outcome is recorded as a failure, nothing is persisted for it, and the
loop processes the remaining datagrams unchanged. -/
theorem insert_failure_continues (ev : LoopEvent) (rest : List LoopEvent)
    (h : ev.insertOk = false) :
    runSocket (ev :: rest) = stepSocket ev :: runSocket rest ∧
    (∀ r, stepSocket ev ≠ SockOutcome.saved r) ∧
    persisted (ev :: rest) = persisted rest := by
  have hns : ∀ r, stepSocket ev ≠ SockOutcome.saved r := by
    intro r hc
    unfold stepSocket at hc
    by_cases hcomp : (decodeFields ev.data).1 ≠ [] ∧ (decodeFields ev.data).2 ≠ []
    · rw [if_pos hcomp, h] at hc
      simp at hc
    · rw [if_neg hcomp] at hc
      exact SockOutcome.noConfusion hc
  refine ⟨rfl, hns, ?_⟩
  simp only [persisted, runSocket, List.map_cons, List.filterMap_cons]

theorem insert_failure_continues_witness :
    evFail.insertOk = false ∧
    persisted [evFail, evA] = persisted [evA] :=
  ⟨rfl, (insert_failure_continues evFail [evA] rfl).2.2⟩

/-- C9: POST `/submit` without a Content-Length header reads zero bytes,
still sends one empty datagram and still answers the 303 redirect. -/
theorem post_without_content_length (rfile : List Nat) (sendOk : Bool) (fs : FS)
    (tdir : List String) (fuel : Nat) :
    do_POST "/submit" none rfile sendOk fs tdir fuel =
      { sent := some [], response := some redirect303 } := by
  unfold do_POST
  rw [if_neg (fun h => h rfl)]
  have h0 : pyInt ((none : Option String).getD "0") = some 0 := by decide
  rw [h0]
  rfl

/-- C10: GET handling depends only on the path component of the request
URL; query strings and fragments never influence the route taken. -/
theorem get_ignores_query_fragment (fs : FS) (tdir sdir : List String)
    (s1 s2 : String) (fuel : Nat) (h : urlparsePath s1 = urlparsePath s2) :
    do_GET fs tdir sdir s1 fuel = do_GET fs tdir sdir s2 fuel := by
  unfold do_GET
  rw [h]

theorem get_ignores_query_fragment_witness :
    urlparsePath "/index.html?status=ok" = urlparsePath "/index.html#top" ∧
    do_GET sampleFS tdirS sdirS "/index.html?status=ok" 1 =
      do_GET sampleFS tdirS sdirS "/index.html#top" 1 :=
  ⟨by decide,
    get_ignores_query_fragment sampleFS tdirS sdirS "/index.html?status=ok"
      "/index.html#top" 1 (by decide)⟩
